import Mathlib

/-!
Shallow embedding of the data-validation and quality-metrics core of the
solar-challenge repository (`src/app/utils.py`): `validate_dataframe` and
`load_cleaned_data`, together with the quality-metrics computation that
`load_cleaned_data` attaches to each dataset.

Modelling decisions:
* A dataframe cell is `Option ℚ`: `none` models a null/NaN entry, `some v`
  a numeric value.  Rationals stand in for the floats of the source; all
  claims are about counts and order comparisons, which the embedding keeps.
* `pandas` mean/std skip nulls and return NaN when undefined (mean of an
  empty column, sample std of fewer than two values); the embedding returns
  `none` in exactly those cases, and every comparison against NaN is false,
  which is how `NaN > x` behaves in the source.
* The test `abs(value - mean) > 3 * std` of the source is rendered as
  `(value - mean)^2 > 9 * var` where `var` is the sample variance
  (`std = sqrt var`, `std ≥ 0`, and squaring is strictly monotone on
  nonnegatives, so the two tests select the same rows); this keeps the
  definition inside ℚ and executable.
* Logging calls become an explicit list of `Diagnostic` values.
* The filesystem that `load_cleaned_data` reads from is abstracted as a
  directory-existence flag plus a map from filename to the outcome of
  `pd.read_csv` (a dataframe, or an error message for a missing or
  malformed file).
-/

namespace SolarQA

/-- A single cell of a dataframe column: `none` is a null/NaN entry. -/
abbrev Cell := Option ℚ

/-- One column of a dataframe, as the list of its cells, row by row. -/
abbrev Column := List Cell

/-- The quality-metrics structure that `load_cleaned_data` attaches to a
dataframe via `df.attrs['quality_metrics']`: two association lists, column
name to missing-value count and column name to outlier count. -/
structure QualityMetrics where
  missing_values : List (String × Nat)
  outliers : List (String × Nat)
deriving DecidableEq, Repr

/-- A dataframe: named columns (in order) plus the `attrs` side slot where
`load_cleaned_data` stores quality metrics (`none` when nothing attached). -/
structure DataFrame where
  cols : List (String × Column)
  attrs : Option QualityMetrics := none
deriving DecidableEq, Repr

/-- `required_columns = ['GHI', 'DNI', 'DHI']` from `validate_dataframe`. -/
def requiredColumns : List String := ["GHI", "DNI", "DHI"]

/-- Membership of a column name in the dataframe's column set
(`col in df.columns`). -/
def DataFrame.hasCol (df : DataFrame) (c : String) : Bool :=
  df.cols.any (fun p => p.1 == c)

/-- Column selection `df[col]`; defaults to the empty column when absent
(the source only selects columns whose presence was already checked). -/
def DataFrame.col (df : DataFrame) (c : String) : Column :=
  ((df.cols.find? (fun p => p.1 == c)).map Prod.snd).getD []

/-- The non-null values of a column, in row order (what `pandas` aggregates
such as `mean`/`std` operate on, since they skip NaN). -/
def nonNull (xs : Column) : List ℚ :=
  xs.filterMap id

/-- `df[col].mean()`: arithmetic mean over non-null values; `none` (NaN)
when there is no non-null value. -/
def colMean (xs : Column) : Option ℚ :=
  let vs := nonNull xs
  if vs.length = 0 then none else some (vs.sum / vs.length)

/-- `df[col].std()`, represented by the sample variance (`ddof = 1`, the
`pandas` default): `none` (NaN) when fewer than two non-null values. -/
def colVar (xs : Column) : Option ℚ :=
  let vs := nonNull xs
  if vs.length < 2 then none
  else some ((vs.map (fun x => (x - vs.sum / vs.length) ^ 2)).sum / (vs.length - 1))

/-- `df[col].isnull().sum()`: the number of null cells of a column. -/
def missingCount (xs : Column) : Nat :=
  xs.countP (fun c => c.isNone)

/-- `(df[col] < 0).any()`: comparing a NaN cell with 0 is false. -/
def hasNegative (xs : Column) : Bool :=
  xs.any (fun c =>
    match c with
    | some v => decide (v < 0)
    | none => false)

/-- `len(df[abs(df[col] - mean) > 3 * std])`: the number of rows whose
value is more than three standard deviations from the mean.  When the mean
or the standard deviation is NaN the comparison is false on every row, and
a null cell compares false as well, exactly as in `pandas`; the comparison
is the squared form of `abs(x - mean) > 3 * std` (see the module header). -/
def outlierCount (xs : Column) : Nat :=
  match colMean xs, colVar xs with
  | some m, some v =>
      xs.countP (fun c =>
        match c with
        | some x => decide ((x - m) ^ 2 > 9 * v)
        | none => false)
  | _, _ => 0

/-- The diagnostic (logging) messages `validate_dataframe` and
`load_cleaned_data` can emit, with the data each message interpolates. -/
inductive Diagnostic where
  | missingColumns (country : String) (cols : List String)
  | negativeValues (country : String) (col : String)
  | missingValues (country : String) (counts : List (String × Nat))
  | outliers (country : String) (col : String) (count : Nat)
deriving DecidableEq, Repr

/-- `validate_dataframe(df, country)` from `src/app/utils.py`: returns the
emitted diagnostics together with the boolean verdict.  If any required
column is absent it logs an error and returns false at once; otherwise it
logs warnings for negative values, missing values and outliers in the
required columns and returns true. -/
def validate_dataframe (df : DataFrame) (country : String) : List Diagnostic × Bool :=
  let missing_columns := requiredColumns.filter (fun c => !df.hasCol c)
  if missing_columns.isEmpty then
    let negWarns := requiredColumns.filterMap (fun c =>
      if hasNegative (df.col c) then some (Diagnostic.negativeValues country c) else none)
    let missing_values := requiredColumns.map (fun c => (c, missingCount (df.col c)))
    let mvWarns :=
      if missing_values.any (fun p => p.2 != 0) then
        [Diagnostic.missingValues country missing_values]
      else []
    let outWarns := requiredColumns.filterMap (fun c =>
      let k := outlierCount (df.col c)
      if k != 0 then some (Diagnostic.outliers country c k) else none)
    (negWarns ++ mvWarns ++ outWarns, true)
  else
    ([Diagnostic.missingColumns country missing_columns], false)

/-- The quality-metrics computation inlined in `load_cleaned_data`:
`missing_values` is `df.isnull().sum().to_dict()` — over ALL columns of the
dataframe — and `outliers` is the dict comprehension over exactly
`['GHI', 'DNI', 'DHI']`. -/
def computeQualityMetrics (df : DataFrame) : QualityMetrics :=
  { missing_values := df.cols.map (fun p => (p.1, missingCount p.2))
    outliers := requiredColumns.map (fun c => (c, outlierCount (df.col c))) }

/-- `df.attrs['quality_metrics'] = ...`: the dataframe with metrics attached. -/
def attachMetrics (df : DataFrame) : DataFrame :=
  { df with attrs := some (computeQualityMetrics df) }

/-- Lookup of a count in one of the metric association lists. -/
def lookupCount (m : List (String × Nat)) (c : String) : Option Nat :=
  (m.find? (fun p => p.1 == c)).map Prod.snd

/-- The fatal conditions `load_cleaned_data` can raise: the explicit
`FileNotFoundError` for a missing directory, a failed `pd.read_csv`
(missing or malformed file), and the `ValueError` raised when a dataset
fails validation, whose message names the offending country. -/
inductive LoadError where
  | directoryNotFound (dir : String)
  | readError (msg : String)
  | validationFailed (country : String)
deriving DecidableEq, Repr

/-- The environment `load_cleaned_data` runs against: whether the data
directory exists, and the outcome of `pd.read_csv` per filename (`ok` a
dataframe, `error` a message for a missing or malformed file). -/
structure FileSystem where
  dirExists : Bool
  readFile : String → Except String DataFrame

/-- The `for country, df in data.items()` loop of `load_cleaned_data`, in
insertion order: validate each dataset, raising `ValueError` naming the
country on the first failure, and attach quality metrics on success. -/
def processCountries : List (String × DataFrame) → Except LoadError (List (String × DataFrame))
  | [] => Except.ok []
  | (country, df) :: rest =>
    if (validate_dataframe df country).2 then
      match processCountries rest with
      | Except.ok rest' => Except.ok ((country, attachMetrics df) :: rest')
      | Except.error e => Except.error e
    else
      Except.error (LoadError.validationFailed country)

/-- `load_cleaned_data(data_dir)` from `src/app/utils.py`: checks the
directory, reads the three fixed CSV files in order (a failed read aborts
before the later files are touched), then validates and annotates each
country's dataset; any raised condition propagates to the caller. -/
def load_cleaned_data (fs : FileSystem) (data_dir : String) :
    Except LoadError (List (String × DataFrame)) :=
  if fs.dirExists then
    match fs.readFile "benin_clean.csv" with
    | Except.error e => Except.error (LoadError.readError e)
    | Except.ok benin =>
      match fs.readFile "togo_clean.csv" with
      | Except.error e => Except.error (LoadError.readError e)
      | Except.ok togo =>
        match fs.readFile "sierraleone_clean.csv" with
        | Except.error e => Except.error (LoadError.readError e)
        | Except.ok sierraleone =>
          processCountries
            [("Benin", benin), ("Togo", togo), ("Sierra Leone", sierraleone)]
  else
    Except.error (LoadError.directoryNotFound data_dir)

/-! ### Concrete inputs used to instantiate the theorems -/

/-- The dataset of the spec's missing-value example:
`GHI=[100, None, 300], DNI=[150,250,350], DHI=[50,150,250]`. -/
def exampleFull : DataFrame :=
  { cols := [("GHI", [some 100, none, some 300]),
             ("DNI", [some 150, some 250, some 350]),
             ("DHI", [some 50, some 150, some 250])] }

/-- A schema-complete dataset with no nulls. -/
def exampleComplete : DataFrame :=
  { cols := [("GHI", [some 100, some 200, some 300]),
             ("DNI", [some 150, some 250, some 350]),
             ("DHI", [some 50, some 150, some 250])] }

/-- The spec's failing scenario: a dataset with only `DNI` and `DHI`. -/
def exampleMissingGHI : DataFrame :=
  { cols := [("DNI", [some 150]), ("DHI", [some 50])] }

/-- A schema-complete dataset that also carries a non-required column. -/
def exampleExtraCol : DataFrame :=
  { cols := [("Timestamp", [some 1]), ("GHI", [some 100]),
             ("DNI", [some 150]), ("DHI", [some 50])] }

/-- A single-row dataset: the sample standard deviation of each column is
undefined (NaN in the source). -/
def exampleSingleRow : DataFrame :=
  { cols := [("GHI", [some 5]), ("DNI", [some 5]), ("DHI", [some 5])] }

/-- A filesystem whose three expected files read back the given datasets. -/
def exampleFS (benin togo sierraleone : DataFrame) : FileSystem :=
  { dirExists := true
    readFile := fun f =>
      if f == "benin_clean.csv" then Except.ok benin
      else if f == "togo_clean.csv" then Except.ok togo
      else if f == "sierraleone_clean.csv" then Except.ok sierraleone
      else Except.error "file not found" }

/-! ### Helper lemmas -/

/-- The verdict of `validate_dataframe` is exactly the emptiness of the
list of absent required columns. -/
lemma validate_snd (df : DataFrame) (country : String) :
    (validate_dataframe df country).2
      = (requiredColumns.filter (fun c => !df.hasCol c)).isEmpty := by
  by_cases h : (List.filter (fun c => !df.hasCol c) requiredColumns).isEmpty <;>
    simp [validate_dataframe, h]

/-- On a schema-incomplete dataset, `validate_dataframe` logs one error
naming the absent columns and returns false. -/
lemma validate_of_missing (df : DataFrame) (country : String)
    (h : ¬ (requiredColumns.filter (fun c => !df.hasCol c)).isEmpty = true) :
    validate_dataframe df country
      = ([Diagnostic.missingColumns country
            (requiredColumns.filter (fun c => !df.hasCol c))], false) := by
  simp [validate_dataframe, h]

/-- On a schema-complete dataset, `validate_dataframe` returns true with
the three groups of warnings. -/
lemma validate_of_complete (df : DataFrame) (country : String)
    (h : (requiredColumns.filter (fun c => !df.hasCol c)).isEmpty = true) :
    validate_dataframe df country
      = (requiredColumns.filterMap (fun c =>
            if hasNegative (df.col c) then
              some (Diagnostic.negativeValues country c) else none)
         ++ (if (requiredColumns.map (fun c => (c, missingCount (df.col c)))).any
                 (fun p => p.2 != 0) then
               [Diagnostic.missingValues country
                 (requiredColumns.map (fun c => (c, missingCount (df.col c))))]
             else [])
         ++ requiredColumns.filterMap (fun c =>
              if outlierCount (df.col c) != 0 then
                some (Diagnostic.outliers country c (outlierCount (df.col c)))
              else none),
         true) := by
  simp [validate_dataframe, h]

/-- `find?` over an association list whose values were rewritten in place
commutes with the rewriting. -/
lemma find?_map_keyVal {α β : Type} (g : α → β) (l : List (String × α)) (c : String) :
    ((l.map (fun p => (p.1, g p.2))).find? (fun p => p.1 == c))
      = (l.find? (fun p => p.1 == c)).map (fun p => (p.1, g p.2)) := by
  induction l with
  | nil => rfl
  | cons hd tl ih =>
    by_cases h : hd.1 == c <;> simp [List.find?_cons, h, ih]

/-- The outlier mapping of the attached metrics holds, for each required
column, exactly the `outlierCount` of that column. -/
lemma lookupCount_outliers (df : DataFrame) (c : String) (hc : c ∈ requiredColumns) :
    lookupCount (computeQualityMetrics df).outliers c = some (outlierCount (df.col c)) := by
  have h3 : c = "GHI" ∨ c = "DNI" ∨ c = "DHI" := by simpa [requiredColumns] using hc
  rcases h3 with h | h | h <;> subst h <;> rfl

/-- Counting cells by a predicate that rejects nulls is counting the
matching non-null values. -/
lemma countP_cells (q : ℚ → Bool) (xs : Column) :
    (xs.countP (fun cell =>
        match cell with
        | some x => q x
        | none => false))
      = ((nonNull xs).filter q).length := by
  induction xs with
  | nil => rfl
  | cons hd tl ih =>
    cases hd with
    | none => simpa [nonNull, List.countP_cons] using ih
    | some x =>
      by_cases hq : q x <;>
        simp [nonNull, List.countP_cons, List.filter_cons, hq, ih]

/-- `outlierCount` counts the non-null values beyond the 3-sigma band;
in particular null cells are never counted. -/
lemma outlierCount_eq_filter_nonNull (xs : Column) :
    outlierCount xs
      = (match colMean xs, colVar xs with
         | some m, some v =>
             ((nonNull xs).filter (fun x => decide ((x - m) ^ 2 > 9 * v))).length
         | _, _ => 0) := by
  unfold outlierCount
  cases hm : colMean xs <;> cases hv : colVar xs <;> simp [countP_cells]

/-- The quality metrics read only the `cols` field of the dataframe. -/
lemma computeQualityMetrics_cols_only (cols : List (String × Column))
    (a₁ a₂ : Option QualityMetrics) :
    computeQualityMetrics { cols := cols, attrs := a₁ }
      = computeQualityMetrics { cols := cols, attrs := a₂ } := rfl

/-! ### Claims -/

/-- C1: `validate_dataframe` returns true exactly when all three required
columns `GHI`, `DNI`, `DHI` are present in the dataset's column set;
negative values, missing values and outliers in those columns never change
the verdict. -/
theorem validate_true_iff_all_required_present (df : DataFrame) (country : String) :
    (validate_dataframe df country).2 = true ↔ ∀ c ∈ requiredColumns, df.hasCol c = true := by
  rw [validate_snd]
  simp [List.isEmpty_iff, List.filter_eq_nil_iff]

/-- C1, instantiated: a dataset with all of `GHI`, `DNI`, `DHI` present
but a null value in `GHI` still validates. -/
theorem validate_true_iff_all_required_present_witness :
    (validate_dataframe exampleFull "Benin").2 = true :=
  (validate_true_iff_all_required_present exampleFull "Benin").mpr (by decide)

lemma map_fst_pairs {α β : Type} (h : α → β) (l : List α) :
    (l.map (fun c => (c, h c))).map Prod.fst = l := by
  induction l <;> simp_all

lemma map_fst_map_keyVal {α β : Type} (g : α → β) (l : List (String × α)) :
    (l.map (fun p => (p.1, g p.2))).map Prod.fst = l.map Prod.fst := by
  induction l <;> simp_all

/-- C2, counterexample: on a dataset that carries a non-required column
`Timestamp`, the `missing_values` mapping of the computed quality metrics
has `Timestamp` among its keys, so its key set does not cover exactly the
three required columns. -/
theorem metrics_missing_values_extra_key :
    "Timestamp" ∈ (computeQualityMetrics exampleExtraCol).missing_values.map Prod.fst
      ∧ "Timestamp" ∉ requiredColumns := by
  constructor
  · decide
  · decide

/-- C2, amended: the `outliers` mapping's key set is exactly the three
required columns, while the `missing_values` mapping's key set is exactly
the set of ALL columns of the dataset (which coincides with the required
three only when the dataset has no other column). -/
theorem metrics_key_sets (df : DataFrame) :
    (computeQualityMetrics df).outliers.map Prod.fst = requiredColumns
      ∧ (computeQualityMetrics df).missing_values.map Prod.fst = df.cols.map Prod.fst := by
  exact ⟨map_fst_pairs _ _, map_fst_map_keyVal _ _⟩

/-- C5: for every column present in the dataset, the missing-value count
reported by the quality metrics is exactly the number of null cells of
that column. -/
theorem missing_value_count_exact (df : DataFrame) (c : String) (h : df.hasCol c = true) :
    lookupCount (computeQualityMetrics df).missing_values c
      = some (missingCount (df.col c)) := by
  unfold lookupCount computeQualityMetrics
  rw [find?_map_keyVal]
  have hsome : (df.cols.find? (fun q => q.1 == c)).isSome := by
    unfold DataFrame.hasCol at h
    rw [List.find?_isSome]
    simpa [List.any_eq_true] using h
  obtain ⟨p, hp⟩ := Option.isSome_iff_exists.mp hsome
  rw [hp]
  simp [DataFrame.col, hp]

/-- C5, instantiated on the spec's example
`GHI=[100, None, 300], DNI=[150,250,350], DHI=[50,150,250]`: the reported
counts are 1 for `GHI` and 0 for `DNI` and `DHI`. -/
theorem missing_value_count_exact_witness :
    lookupCount (computeQualityMetrics exampleFull).missing_values "GHI" = some 1
      ∧ lookupCount (computeQualityMetrics exampleFull).missing_values "DNI" = some 0
      ∧ lookupCount (computeQualityMetrics exampleFull).missing_values "DHI" = some 0 := by
  refine ⟨?_, ?_, ?_⟩ <;>
  · rw [missing_value_count_exact _ _ (by decide)]
    decide

/-- C3: for every required column, the outlier count the quality metrics
report is the number of non-null values beyond three standard deviations
from the mean, where mean and sample standard deviation are computed over
the column's non-null values (`colMean`/`colVar`); null cells are never
counted, and when the standard deviation is undefined (NaN) the count
is 0.  The 3-sigma test appears in its squared form, see the module
header. -/
theorem outlier_count_three_sigma (df : DataFrame) (c : String) (hc : c ∈ requiredColumns) :
    lookupCount (computeQualityMetrics df).outliers c
      = some (match colMean (df.col c), colVar (df.col c) with
              | some m, some v =>
                  ((nonNull (df.col c)).filter
                    (fun x => decide ((x - m) ^ 2 > 9 * v))).length
              | _, _ => 0) := by
  rw [lookupCount_outliers df c hc, outlierCount_eq_filter_nonNull]

/-- C3, instantiated: on `GHI=[100,200,300]` no value lies beyond three
standard deviations, and the metrics report 0 outliers for `GHI`. -/
theorem outlier_count_three_sigma_witness :
    "GHI" ∈ requiredColumns
      ∧ lookupCount (computeQualityMetrics exampleComplete).outliers "GHI" = some 0 := by
  refine ⟨by decide, ?_⟩
  rw [outlier_count_three_sigma exampleComplete "GHI" (by decide)]
  simp [exampleComplete, DataFrame.col, colMean, colVar, nonNull, List.find?]
  norm_num

/-- C4: when the directory exists and all three files read successfully
but some dataset fails validation, `load_cleaned_data` fails with a
validation error naming an offending country (whose dataset indeed fails
validation), and no mapping is returned. -/
theorem load_validation_failure
    (fs : FileSystem) (dir : String) (b t s : DataFrame)
    (hdir : fs.dirExists = true)
    (hb : fs.readFile "benin_clean.csv" = Except.ok b)
    (ht : fs.readFile "togo_clean.csv" = Except.ok t)
    (hs : fs.readFile "sierraleone_clean.csv" = Except.ok s)
    (hfail : (validate_dataframe b "Benin").2 = false
        ∨ (validate_dataframe t "Togo").2 = false
        ∨ (validate_dataframe s "Sierra Leone").2 = false) :
    ∃ country df,
      load_cleaned_data fs dir = Except.error (LoadError.validationFailed country)
        ∧ (country, df) ∈ [("Benin", b), ("Togo", t), ("Sierra Leone", s)]
        ∧ (validate_dataframe df country).2 = false := by
  have hload : load_cleaned_data fs dir
      = processCountries [("Benin", b), ("Togo", t), ("Sierra Leone", s)] := by
    simp [load_cleaned_data, hdir, hb, ht, hs]
  by_cases h1 : (validate_dataframe b "Benin").2
  · by_cases h2 : (validate_dataframe t "Togo").2
    · by_cases h3 : (validate_dataframe s "Sierra Leone").2
      · exfalso
        rcases hfail with h | h | h <;> simp_all
      · exact ⟨"Sierra Leone", s,
          by rw [hload]; simp [processCountries, h1, h2, h3],
          by simp, by simpa using h3⟩
    · exact ⟨"Togo", t,
        by rw [hload]; simp [processCountries, h1, h2],
        by simp, by simpa using h2⟩
  · exact ⟨"Benin", b,
      by rw [hload]; simp [processCountries, h1],
      by simp, by simpa using h1⟩

/-- C4, instantiated on the spec's scenario: a `benin_clean.csv` whose
dataset has only `DNI` and `DHI` makes the load fail naming "Benin". -/
theorem load_validation_failure_witness :
    ∃ country df,
      load_cleaned_data (exampleFS exampleMissingGHI exampleComplete exampleComplete) "data"
          = Except.error (LoadError.validationFailed country)
        ∧ (country, df) ∈ [("Benin", exampleMissingGHI), ("Togo", exampleComplete),
            ("Sierra Leone", exampleComplete)]
        ∧ (validate_dataframe df country).2 = false :=
  load_validation_failure (exampleFS exampleMissingGHI exampleComplete exampleComplete)
    "data" exampleMissingGHI exampleComplete exampleComplete rfl rfl rfl rfl
    (Or.inl (by decide))

/-- C6: `validate_dataframe` is total — on every dataset and label it
returns a diagnostics/verdict pair (the embedding is a total function,
mirroring that the source raises no exception: NaN means and undefined
standard deviations are values, not errors) — and a failing verdict always
comes with a diagnostic reporting the issue. -/
theorem validate_total (df : DataFrame) (country : String) :
    ∃ log verdict, validate_dataframe df country = (log, verdict)
      ∧ (verdict = false → log ≠ []) := by
  by_cases h : (requiredColumns.filter (fun c => !df.hasCol c)).isEmpty
  · rw [validate_of_complete df country h]
    refine ⟨_, _, rfl, ?_⟩
    intro hv
    exact absurd hv (by simp)
  · rw [validate_of_missing df country h]
    exact ⟨_, _, rfl, fun _ => by simp⟩

/-- C6, instantiated on a schema-incomplete dataset. -/
theorem validate_total_witness :
    ∃ log verdict, validate_dataframe exampleMissingGHI "Benin" = (log, verdict)
      ∧ (verdict = false → log ≠ []) :=
  validate_total exampleMissingGHI "Benin"

/-- C7: when the data directory does not exist, `load_cleaned_data` fails
with the directory-not-found condition — and since the statement holds for
EVERY `readFile` function, the failure cannot depend on any file content:
no file is read. -/
theorem load_missing_directory (read : String → Except String DataFrame) (dir : String) :
    load_cleaned_data { dirExists := false, readFile := read } dir
      = Except.error (LoadError.directoryNotFound dir) := by
  simp [load_cleaned_data]

/-- C8: a fully successful load returns the mapping with exactly the three
country keys "Benin", "Togo", "Sierra Leone", in that order, and every
returned dataset carries attached quality metrics computed from its own
tabular data. -/
theorem load_success
    (fs : FileSystem) (dir : String) (b t s : DataFrame)
    (hdir : fs.dirExists = true)
    (hb : fs.readFile "benin_clean.csv" = Except.ok b)
    (ht : fs.readFile "togo_clean.csv" = Except.ok t)
    (hs : fs.readFile "sierraleone_clean.csv" = Except.ok s)
    (vb : (validate_dataframe b "Benin").2 = true)
    (vt : (validate_dataframe t "Togo").2 = true)
    (vs' : (validate_dataframe s "Sierra Leone").2 = true) :
    ∃ m, load_cleaned_data fs dir = Except.ok m
      ∧ m = [("Benin", attachMetrics b), ("Togo", attachMetrics t),
             ("Sierra Leone", attachMetrics s)]
      ∧ m.map Prod.fst = ["Benin", "Togo", "Sierra Leone"]
      ∧ ∀ p ∈ m, p.2.attrs
          = some (computeQualityMetrics { cols := p.2.cols, attrs := none }) := by
  have hload : load_cleaned_data fs dir
      = processCountries [("Benin", b), ("Togo", t), ("Sierra Leone", s)] := by
    simp [load_cleaned_data, hdir, hb, ht, hs]
  refine ⟨_, ?_, rfl, by simp, ?_⟩
  · rw [hload]
    simp [processCountries, vb, vt, vs']
  · intro p hp
    have key : ∀ df : DataFrame,
        (attachMetrics df).attrs
          = some (computeQualityMetrics { cols := (attachMetrics df).cols, attrs := none }) := by
      intro df
      obtain ⟨cols, a⟩ := df
      exact congrArg some (computeQualityMetrics_cols_only cols a none).symm
    simp only [List.mem_cons, List.not_mem_nil, or_false] at hp
    rcases hp with h | h | h <;> subst h
    · exact key b
    · exact key t
    · exact key s

/-- C8, instantiated on three well-formed, schema-complete datasets. -/
theorem load_success_witness :
    ∃ m, load_cleaned_data (exampleFS exampleComplete exampleComplete exampleFull) "data"
          = Except.ok m
      ∧ m = [("Benin", attachMetrics exampleComplete),
             ("Togo", attachMetrics exampleComplete),
             ("Sierra Leone", attachMetrics exampleFull)]
      ∧ m.map Prod.fst = ["Benin", "Togo", "Sierra Leone"]
      ∧ ∀ p ∈ m, p.2.attrs
          = some (computeQualityMetrics { cols := p.2.cols, attrs := none }) :=
  load_success (exampleFS exampleComplete exampleComplete exampleFull) "data"
    exampleComplete exampleComplete exampleFull rfl rfl rfl rfl
    (by decide) (by decide) (by decide)

/-- C9: the quality metrics are a pure function of the dataset's tabular
data: two dataframes with identical columns (whatever their attached
metadata) yield identical metrics, and attaching metrics leaves the
tabular data unchanged. -/
theorem metrics_pure (df₁ df₂ : DataFrame) (h : df₁.cols = df₂.cols) :
    computeQualityMetrics df₁ = computeQualityMetrics df₂
      ∧ (attachMetrics df₁).cols = df₁.cols := by
  constructor
  · unfold computeQualityMetrics DataFrame.col
    rw [h]
  · rfl

/-- C9, instantiated: the metrics of a dataset and of the same dataset
with metrics already attached coincide. -/
theorem metrics_pure_witness :
    computeQualityMetrics exampleFull = computeQualityMetrics (attachMetrics exampleFull)
      ∧ (attachMetrics exampleFull).cols = exampleFull.cols :=
  metrics_pure exampleFull (attachMetrics exampleFull) rfl

/-- The mean of a column whose non-null values all equal `v` is `v`. -/
lemma colMean_const (xs : Column) (v : ℚ) (hne : nonNull xs ≠ [])
    (h : ∀ x ∈ nonNull xs, x = v) : colMean xs = some v := by
  unfold colMean
  have hlen : (nonNull xs).length ≠ 0 := by
    simpa [List.length_eq_zero] using hne
  rw [if_neg hlen]
  congr 1
  rw [List.sum_eq_card_nsmul (nonNull xs) v h, nsmul_eq_mul]
  field_simp

/-- The sample variance of a column with at least two non-null values,
all equal, is zero. -/
lemma colVar_const (xs : Column) (v : ℚ) (h2 : 2 ≤ (nonNull xs).length)
    (h : ∀ x ∈ nonNull xs, x = v) : colVar xs = some 0 := by
  unfold colVar
  rw [if_neg (by omega)]
  congr 1
  have hm : (nonNull xs).sum / ((nonNull xs).length : ℚ) = v := by
    rw [List.sum_eq_card_nsmul (nonNull xs) v h, nsmul_eq_mul]
    have : ((nonNull xs).length : ℚ) ≠ 0 := by
      simpa using (by omega : (nonNull xs).length ≠ 0)
    field_simp
  have hz : ((nonNull xs).map
      (fun x => (x - (nonNull xs).sum / ((nonNull xs).length : ℚ)) ^ 2)).sum = 0 := by
    apply List.sum_eq_zero
    intro y hy
    obtain ⟨x, hx, rfl⟩ := List.mem_map.mp hy
    rw [hm, h x hx]
    ring
  rw [hz, zero_div]

/-- A column whose standard deviation is undefined (fewer than two
non-null values) or zero (all non-null values equal) has no outliers. -/
lemma outlierCount_degenerate (xs : Column)
    (h : (nonNull xs).length < 2 ∨ ∀ x ∈ nonNull xs, ∀ y ∈ nonNull xs, x = y) :
    outlierCount xs = 0 := by
  by_cases h2 : (nonNull xs).length < 2
  · unfold outlierCount
    have hv : colVar xs = none := by
      unfold colVar
      rw [if_pos h2]
    rw [hv]
    cases colMean xs <;> rfl
  · rcases h with h | hall
    · exact absurd h h2
    · push_neg at h2
      have hne : nonNull xs ≠ [] := by
        intro hnil
        rw [hnil] at h2
        simp at h2
      obtain ⟨v, hv⟩ := List.exists_mem_of_ne_nil (nonNull xs) hne
      have hcv : ∀ x ∈ nonNull xs, x = v := fun x hx => hall x hx v hv
      unfold outlierCount
      rw [colMean_const xs v hne hcv, colVar_const xs v h2 hcv]
      rw [List.countP_eq_zero]
      intro cell hcell
      cases cell with
      | none => simp
      | some x =>
        have hx : x ∈ nonNull xs := by
          rw [nonNull, List.mem_filterMap]
          exact ⟨some x, hcell, rfl⟩
        have := hcv x hx
        subst this
        simp

/-- C10: for a required column with fewer than two non-null values
(undefined standard deviation) or all non-null values equal (zero standard
deviation), the outlier computation completes and reports 0: the column's
outlier count is 0, the attached quality metrics report 0 for it, and
`validate_dataframe` emits no outlier warning for it. -/
theorem degenerate_std_no_outliers (df : DataFrame) (c : String)
    (hc : c ∈ requiredColumns)
    (hdeg : (nonNull (df.col c)).length < 2
        ∨ ∀ x ∈ nonNull (df.col c), ∀ y ∈ nonNull (df.col c), x = y) :
    outlierCount (df.col c) = 0
      ∧ lookupCount (computeQualityMetrics df).outliers c = some 0
      ∧ ∀ country k, Diagnostic.outliers country c k ∉ (validate_dataframe df country).1 := by
  have h0 := outlierCount_degenerate (df.col c) hdeg
  refine ⟨h0, ?_, ?_⟩
  · rw [lookupCount_outliers df c hc, h0]
  · intro country k hmem
    by_cases h : (requiredColumns.filter (fun c2 => !df.hasCol c2)).isEmpty
    · rw [validate_of_complete df country h] at hmem
      simp only [List.mem_append] at hmem
      rcases hmem with (hmem | hmem) | hmem
      · obtain ⟨a, ha, hEq⟩ := List.mem_filterMap.mp hmem
        by_cases hneg : hasNegative (df.col a) <;> simp [hneg] at hEq
      · by_cases hmv : (requiredColumns.map (fun c2 => (c2, missingCount (df.col c2)))).any
            (fun p => p.2 != 0) <;> simp [hmv] at hmem
      · obtain ⟨a, ha, hEq⟩ := List.mem_filterMap.mp hmem
        by_cases hk : outlierCount (df.col a) != 0
        · simp only [hk, if_true, Option.some.injEq, Diagnostic.outliers.injEq] at hEq
          obtain ⟨-, hac, hkk⟩ := hEq
          subst hac
          rw [h0] at hk
          simp at hk
        · simp only [hk, if_false] at hEq
          exact absurd hEq (by simp)
    · rw [validate_of_missing df country h] at hmem
      simp at hmem

/-- C10, instantiated on a single-row dataset, where the sample standard
deviation of `GHI` is undefined. -/
theorem degenerate_std_no_outliers_witness :
    outlierCount (exampleSingleRow.col "GHI") = 0
      ∧ lookupCount (computeQualityMetrics exampleSingleRow).outliers "GHI" = some 0
      ∧ ∀ country k,
          Diagnostic.outliers country "GHI" k
            ∉ (validate_dataframe exampleSingleRow country).1 :=
  degenerate_std_no_outliers exampleSingleRow "GHI" (by decide) (Or.inl (by decide))

end SolarQA
